import Mathlib

/-!
Shallow embedding of the navigation core of `src/world/NavigationGrid.ts`
(class `NavigationGrid`), together with the parts of its collaborators that
the verified properties need:

* world coordinates are modelled by `ℚ` (the source uses doubles, but every
  constant involved — `cellSize = 0.5`, `offsetX = offsetZ = 15`,
  `padding = 0.3`, the inset `0.5` — is exactly representable and the
  arithmetic performed on coordinates is exact in double precision for the
  magnitudes involved, so `ℚ` is a faithful model of the computations);
* `Vec3` models Babylon.js `Vector3` restricted to its coordinate data;
  `Vec3.Distance` is the Euclidean distance, valued in `ℝ`;
* a mesh is represented by its world-space bounding box (`Box`), which is
  the only data `NavigationGrid` reads from a mesh;
* `House` models the `House` collaborator through the three methods
  `NavigationGrid` calls: `getBounds`, `getWallMeshes`, `getObstacleMeshes`
  (`src/world/House.ts` returns fixed bounds `(-15,0,-15)-(15,3,15)`);
* the `pathfinding` npm library (`Grid`, `AStarFinder`) is present in the
  repository only as a type declaration, so its behaviour is modelled from
  the spec where needed (marked `Modelled from the spec:` below).
-/

/-- Babylon.js `Vector3`, restricted to its coordinate data. -/
structure Vec3 where
  x : ℚ
  y : ℚ
  z : ℚ
deriving DecidableEq, Repr

/-- Babylon.js `Vector3.Distance`: the Euclidean distance between two
points, real-valued. -/
noncomputable def Vec3.Distance (a b : Vec3) : ℝ :=
  Real.sqrt (((a.x - b.x : ℚ) : ℝ) ^ 2 + ((a.y - b.y : ℚ) : ℝ) ^ 2 +
    ((a.z - b.z : ℚ) : ℝ) ^ 2)

/-- A world-space axis-aligned bounding box (the `boundingBox` data of a
mesh: `minimumWorld` / `maximumWorld`). -/
structure Box where
  min : Vec3
  max : Vec3
deriving DecidableEq, Repr

/-- The `House` collaborator, seen through the three methods
`NavigationGrid` calls: `getBounds`, `getWallMeshes` (each wall reduced to
its bounding box) and `getObstacleMeshes` (likewise). -/
structure House where
  bounds : Box
  walls : List Box
  obstacles : List Box

/-- `NavigationGrid.cellSize` (source: `private cellSize: number = 0.5`). -/
def cellSize : ℚ := 1 / 2

/-- `NavigationGrid.offsetX` (source: `private offsetX: number = 15`). -/
def offsetX : ℚ := 15

/-- `NavigationGrid.offsetZ` (source: `private offsetZ: number = 15`). -/
def offsetZ : ℚ := 15

/-- The padding constant of `markMeshAsBlocked`
(source: `const padding = 0.3`). -/
def padding : ℚ := 3 / 10

/-- State of a `NavigationGrid` object: the house it was built from, the
grid dimensions computed in the constructor, and the walkability matrix of
the `pathfinding` `Grid`, modelled as a total function (the source only
reads cells inside `[0,gridWidth) × [0,gridHeight)`, or reads through the
bounds-checked library accessor `isWalkableAt`). -/
structure NavigationGrid where
  house : House
  gridWidth : ℤ
  gridHeight : ℤ
  grid : ℤ → ℤ → Bool

namespace NavigationGrid

/-- The constructor: `gridWidth = ceil((bounds.max.x - bounds.min.x) / cellSize)`,
`gridHeight = ceil((bounds.max.z - bounds.min.z) / cellSize)`; the
`pathfinding` `Grid` starts with every node walkable. -/
def init (h : House) : NavigationGrid where
  house := h
  gridWidth := ⌈(h.bounds.max.x - h.bounds.min.x) / cellSize⌉
  gridHeight := ⌈(h.bounds.max.z - h.bounds.min.z) / cellSize⌉
  grid := fun _ _ => true

/-- `isValidCell(x, z)`: `x >= 0 && x < gridWidth && z >= 0 && z < gridHeight`. -/
def isValidCell (ng : NavigationGrid) (x z : ℤ) : Bool :=
  decide (0 ≤ x ∧ x < ng.gridWidth ∧ 0 ≤ z ∧ z < ng.gridHeight)

/-- Modelled from the spec: the `pathfinding` library accessor
`Grid.isWalkableAt(x, z)` on the canonical grid — bounds-checked, `false`
outside the grid rather than erroring. -/
def isWalkableAt (ng : NavigationGrid) (x z : ℤ) : Bool :=
  ng.isValidCell x z && ng.grid x z

/-- Grid x-index of the left edge of the stamped range of a padded box:
`Math.floor((min.x - padding + offsetX) / cellSize)`. -/
def stampMinX (b : Box) : ℤ := ⌊(b.min.x - padding + offsetX) / cellSize⌋

/-- Grid x-index of the right edge of the stamped range of a padded box:
`Math.ceil((max.x + padding + offsetX) / cellSize)`. -/
def stampMaxX (b : Box) : ℤ := ⌈(b.max.x + padding + offsetX) / cellSize⌉

/-- Grid z-index of the near edge of the stamped range of a padded box:
`Math.floor((min.z - padding + offsetZ) / cellSize)`. -/
def stampMinZ (b : Box) : ℤ := ⌊(b.min.z - padding + offsetZ) / cellSize⌋

/-- Grid z-index of the far edge of the stamped range of a padded box:
`Math.ceil((max.z + padding + offsetZ) / cellSize)`. -/
def stampMaxZ (b : Box) : ℤ := ⌈(b.max.z + padding + offsetZ) / cellSize⌉

/-- Whether cell `(x, z)` lies in the inclusive stamped grid range of the
padded box `b` — the loop bounds of `markMeshAsBlocked`. -/
def inStampRange (b : Box) (x z : ℤ) : Bool :=
  decide (stampMinX b ≤ x ∧ x ≤ stampMaxX b ∧ stampMinZ b ≤ z ∧ z ≤ stampMaxZ b)

/-- `markMeshAsBlocked(mesh)`: every cell of the inclusive stamped range of
the padded bounding box that passes `isValidCell` is set non-walkable;
out-of-range cells of the loop are skipped. Each loop iteration touches a
distinct cell, so the double loop is rendered pointwise. -/
def markMeshAsBlocked (ng : NavigationGrid) (b : Box) : NavigationGrid :=
  { ng with
    grid := fun x z =>
      if inStampRange b x z && ng.isValidCell x z then false else ng.grid x z }

/-- The test of `markOutOfBounds` on cell `(x, z)`: the cell's world corner
`(x * cellSize - offsetX, z * cellSize - offsetZ)` is outside the house
bounds shrunk by the 0.5 inset. -/
def outsideInset (h : House) (x z : ℤ) : Bool :=
  decide (x * cellSize - offsetX < h.bounds.min.x + 1 / 2 ∨
    x * cellSize - offsetX > h.bounds.max.x - 1 / 2 ∨
    z * cellSize - offsetZ < h.bounds.min.z + 1 / 2 ∨
    z * cellSize - offsetZ > h.bounds.max.z - 1 / 2)

/-- `markOutOfBounds()`: every in-range cell whose world corner is outside
the inset house bounds is set non-walkable (pointwise rendering of the
in-range double loop). -/
def markOutOfBounds (ng : NavigationGrid) : NavigationGrid :=
  { ng with
    grid := fun x z =>
      if ng.isValidCell x z && outsideInset ng.house x z then false
      else ng.grid x z }

/-- The first loop of `generate()`: every in-range cell is set walkable. -/
def setAllWalkable (ng : NavigationGrid) : NavigationGrid :=
  { ng with grid := fun x z => if ng.isValidCell x z then true else ng.grid x z }

/-- `generate()`: all cells walkable, then walls stamped, then obstacles
stamped, then out-of-bounds masking (the stamping passes leave the `house`
field untouched, so the wall and obstacle lists are read off `ng.house`). -/
def generate (ng : NavigationGrid) : NavigationGrid :=
  (ng.house.obstacles.foldl markMeshAsBlocked
    (ng.house.walls.foldl markMeshAsBlocked ng.setAllWalkable)).markOutOfBounds

/-- `worldToGrid(worldPos)`: floor division by `cellSize` after adding the
offsets. -/
def worldToGrid (p : Vec3) : ℤ × ℤ :=
  (⌊(p.x + offsetX) / cellSize⌋, ⌊(p.z + offsetZ) / cellSize⌋)

/-- `gridToWorld(gridX, gridZ)`: the world-space center of the cell
(corner plus half a cell), with `y = 0`. -/
def gridToWorld (gridX gridZ : ℤ) : Vec3 :=
  ⟨gridX * cellSize - offsetX + cellSize / 2, 0,
    gridZ * cellSize - offsetZ + cellSize / 2⟩

end NavigationGrid

/-- Modelled from the spec: the working copy of the grid handed to the
`pathfinding` `AStarFinder` (`this.grid.clone()`). The search "must operate
on a disposable copy or snapshot of the grid's walkability data"; the
library annotates nodes with search state during a query, modelled here by
the `closed` list of settled cells carried next to the (never written)
walkability snapshot. -/
structure SearchGrid where
  width : ℤ
  height : ℤ
  walk : ℤ → ℤ → Bool
  closed : List (ℤ × ℤ)

/-- Modelled from the spec: bounds-checked walkability of a cell of the
search grid (the library's `Grid.isWalkableAt`, which returns `false`
outside the grid rather than erroring). -/
def SearchGrid.walkableAt (sg : SearchGrid) (c : ℤ × ℤ) : Bool :=
  decide (0 ≤ c.1 ∧ c.1 < sg.width ∧ 0 ≤ c.2 ∧ c.2 < sg.height) && sg.walk c.1 c.2

/-- Modelled from the spec: legality of a single move of the 8-connected
search with `allowDiagonal: true, dontCrossCorners: true`. The target cell
must be walkable; an orthogonal step is then always legal, and a diagonal
step is legal only when both cells orthogonally adjacent to the diagonal
are walkable (no corner-cutting). -/
def legalStep (sg : SearchGrid) (c c2 : ℤ × ℤ) : Bool :=
  sg.walkableAt c2 &&
    (decide (|c2.1 - c.1| + |c2.2 - c.2| = 1) ||
      (decide (|c2.1 - c.1| = 1 ∧ |c2.2 - c.2| = 1) &&
        sg.walkableAt (c2.1, c.2) && sg.walkableAt (c.1, c2.2)))

/-- Modelled from the spec: rational stand-in for the float `Math.SQRT2`
used as the diagonal step cost and in the octile heuristic. -/
def SQRT2 : ℚ := 14142135623730951 / 10000000000000000

/-- Modelled from the spec: the octile distance heuristic, admissible for
8-connected movement. -/
def octile (dx dz : ℤ) : ℚ :=
  if |dx| < |dz| then SQRT2 * (|dx| : ℤ) + ((|dz| : ℤ) - (|dx| : ℤ))
  else SQRT2 * (|dz| : ℤ) + ((|dx| : ℤ) - (|dz| : ℤ))

/-- Modelled from the spec: cost of one step (diagonal steps cost `SQRT2`,
orthogonal steps cost 1). -/
def stepCost (c c2 : ℤ × ℤ) : ℚ :=
  if |c2.1 - c.1| = 1 ∧ |c2.2 - c.2| = 1 then SQRT2 else 1

/-- Modelled from the spec: one frontier entry of the search — the current
cell, the reversed list of cells by which it was reached (excluding the
current cell), and the accumulated path cost. -/
structure Entry where
  cur : ℤ × ℤ
  tail : List (ℤ × ℤ)
  g : ℚ

/-- Modelled from the spec: f-value of a frontier entry, cost so far plus
the octile heuristic to the goal. -/
def fval (endC : ℤ × ℤ) (e : Entry) : ℚ :=
  e.g + octile (e.cur.1 - endC.1) (e.cur.2 - endC.2)

/-- Modelled from the spec: extraction of a minimum-f entry from the open
list, keeping the earliest entry on ties (the deterministic tie-breaking
the spec requires), and returning the remaining entries in order. -/
def pickMin (endC : ℤ × ℤ) : List Entry → Option (Entry × List Entry)
  | [] => none
  | e :: es =>
    match pickMin endC es with
    | none => some (e, [])
    | some (e2, es2) =>
      if fval endC e ≤ fval endC e2 then some (e, es) else some (e2, e :: es2)

/-- Modelled from the spec: the neighbor offsets of the 8-connected
expansion, orthogonal directions first, then diagonals. -/
def neighborOffsets : List (ℤ × ℤ) :=
  [(0, -1), (1, 0), (0, 1), (-1, 0), (-1, -1), (1, -1), (1, 1), (-1, 1)]

/-- Modelled from the spec: expansion of a settled cell — every legal,
not-yet-settled neighbor becomes a frontier entry extending the settled
cell's path. -/
def expand (sg : SearchGrid) (c : ℤ × ℤ) (tl : List (ℤ × ℤ)) (g : ℚ) :
    List Entry :=
  neighborOffsets.filterMap fun d =>
    let c2 := (c.1 + d.1, c.2 + d.2)
    if legalStep sg c c2 && !(sg.closed.contains c2) then
      some ⟨c2, c :: tl, g + stepCost c c2⟩
    else none

/-- Modelled from the spec: the main loop of the A* search. Each round
extracts a minimum-f entry; an already-settled cell is skipped, reaching
the goal returns the reconstructed path (start to goal, inclusive), and
otherwise the cell is settled and its neighbors are pushed. Fuel bounds
the rounds; an exhausted search returns the empty path. -/
def astarLoop (endC : ℤ × ℤ) :
    ℕ → SearchGrid → List Entry → List (ℤ × ℤ) × SearchGrid
  | 0, sg, _ => ([], sg)
  | fuel + 1, sg, openL =>
    match pickMin endC openL with
    | none => ([], sg)
    | some (e, rest) =>
      if sg.closed.contains e.cur then astarLoop endC fuel sg rest
      else if e.cur = endC then
        ((e.cur :: e.tail).reverse, { sg with closed := e.cur :: sg.closed })
      else
        let sg2 : SearchGrid := { sg with closed := e.cur :: sg.closed }
        astarLoop endC fuel sg2 (rest ++ expand sg2 e.cur e.tail e.g)

/-- Modelled from the spec: fuel that the search can never exhaust — each
round either settles a new cell (at most `width * height` of them, each
pushing at most 8 entries) or pops one of the pushed entries. -/
def searchFuel (sg : SearchGrid) : ℕ :=
  9 * (sg.width.toNat * sg.height.toNat) + 9

/-- Modelled from the spec: `AStarFinder.findPath(sx, sz, ex, ez, grid)` —
the full search from the start entry, returning the grid-cell path and the
mutated working grid. -/
def finderFindPath (startC endC : ℤ × ℤ) (sg : SearchGrid) :
    List (ℤ × ℤ) × SearchGrid :=
  astarLoop endC (searchFuel sg) sg [⟨startC, [], 0⟩]

namespace NavigationGrid

/-- `findPath(from, to)` in state-passing form: endpoints to grid cells,
clamped into range; the search runs on a clone of the canonical grid
(`const gridClone = this.grid.clone()`), whose mutated final state is
dropped; the cell path is mapped through `gridToWorld`. The returned
`NavigationGrid` is the object's state after the call. -/
def findPathSt (ng : NavigationGrid) (a b : Vec3) :
    List Vec3 × NavigationGrid :=
  let startGrid := worldToGrid a
  let endGrid := worldToGrid b
  let clampedStart := (max 0 (min (ng.gridWidth - 1) startGrid.1),
    max 0 (min (ng.gridHeight - 1) startGrid.2))
  let clampedEnd := (max 0 (min (ng.gridWidth - 1) endGrid.1),
    max 0 (min (ng.gridHeight - 1) endGrid.2))
  let gridClone : SearchGrid :=
    { width := ng.gridWidth, height := ng.gridHeight, walk := ng.grid,
      closed := [] }
  let path := finderFindPath clampedStart clampedEnd gridClone
  (path.1.map fun c => gridToWorld c.1 c.2, ng)

/-- `findPath(from, to)`: the list of world-space waypoints. -/
def findPath (ng : NavigationGrid) (a b : Vec3) : List Vec3 :=
  (ng.findPathSt a b).1

end NavigationGrid

/-- The Euclidean length of a polyline: the sum of `Vec3.Distance` over
consecutive pairs (the accumulation loop of `getPathDistance`). -/
noncomputable def pathLength : List Vec3 → ℝ
  | a :: b :: rest => Vec3.Distance a b + pathLength (b :: rest)
  | _ => 0

namespace NavigationGrid

/-- `getPathDistance(from, to)`: the summed length of the found path, or
the straight-line distance between the two original query points when the
path has fewer than 2 points. -/
noncomputable def getPathDistance (ng : NavigationGrid) (a b : Vec3) : ℝ :=
  if (ng.findPath a b).length < 2 then Vec3.Distance a b
  else pathLength (ng.findPath a b)

/-- `isWalkable(worldPos)`: `false` for out-of-range cells, otherwise the
stored walkability (read through the bounds-checked library accessor). -/
def isWalkable (ng : NavigationGrid) (p : Vec3) : Bool :=
  let gridPos := worldToGrid p
  if !(ng.isValidCell gridPos.1 gridPos.2) then false
  else ng.isWalkableAt gridPos.1 gridPos.2

/-- `const maxAttempts = 100` of `getRandomWalkablePosition`. -/
def maxAttempts : ℕ := 100

/-- The cell sampled at attempt `i`:
`Math.floor(Math.random() * gridWidth)` and likewise for the height, with
the stream of `Math.random()` draws modelled by `rand`. -/
def sample (ng : NavigationGrid) (rand : ℕ → ℚ × ℚ) (i : ℕ) : ℤ × ℤ :=
  (⌊(rand i).1 * ng.gridWidth⌋, ⌊(rand i).2 * ng.gridHeight⌋)

/-- The retry loop of `getRandomWalkablePosition`: attempt `i` with the
given remaining budget; a walkable sampled cell (read through the
bounds-checked library accessor `isWalkableAt`) returns its world center. -/
def randLoop (ng : NavigationGrid) (rand : ℕ → ℚ × ℚ) :
    ℕ → ℕ → Option Vec3
  | _, 0 => none
  | i, fuel + 1 =>
    let c := ng.sample rand i
    if ng.isWalkableAt c.1 c.2 then some (gridToWorld c.1 c.2)
    else ng.randLoop rand (i + 1) fuel

/-- `getRandomWalkablePosition()`: up to `maxAttempts` samples, `null`
(modelled by `none`) when the budget is exhausted. -/
def getRandomWalkablePosition (ng : NavigationGrid) (rand : ℕ → ℚ × ℚ) :
    Option Vec3 :=
  ng.randLoop rand 0 maxAttempts

/-- The no-corner-cutting property of one pair of consecutive waypoints:
if their grid cells are diagonally adjacent, then the two cells
orthogonally adjacent to that diagonal are both walkable. -/
def noCornerCut (ng : NavigationGrid) (w1 w2 : Vec3) : Prop :=
  (|(worldToGrid w2).1 - (worldToGrid w1).1| = 1 ∧
    |(worldToGrid w2).2 - (worldToGrid w1).2| = 1) →
  ng.isWalkableAt (worldToGrid w2).1 (worldToGrid w1).2 = true ∧
  ng.isWalkableAt (worldToGrid w1).1 (worldToGrid w2).2 = true

end NavigationGrid

/-- A house with the bounds `House.getBounds` returns in the source,
`(-15, 0, -15)` to `(15, 3, 15)`, and no wall or obstacle meshes. -/
def houseEmpty : House := ⟨⟨⟨-15, 0, -15⟩, ⟨15, 3, 15⟩⟩, [], []⟩

/-- A unit obstacle box spanning `(0,0,0)-(1,1,1)`. -/
def boxUnit : Box := ⟨⟨0, 0, 0⟩, ⟨1, 1, 1⟩⟩

/-- The house with the source's bounds and the single obstacle `boxUnit`. -/
def houseWithBox : House := ⟨⟨⟨-15, 0, -15⟩, ⟨15, 3, 15⟩⟩, [], [boxUnit]⟩

/-- A fully open 2×2 grid state (concrete input for witnesses). -/
def ngOpen2 : NavigationGrid := ⟨houseEmpty, 2, 2, fun _ _ => true⟩

/-- A fully open 1×1 grid state (concrete input for witnesses). -/
def ngOpen1 : NavigationGrid := ⟨houseEmpty, 1, 1, fun _ _ => true⟩

/-- A fully blocked 2×2 grid state (concrete input for witnesses). -/
def ngBlocked : NavigationGrid := ⟨houseEmpty, 2, 2, fun _ _ => false⟩

/-- A constant stream of `Math.random()` draws, always `(0, 0)`. -/
def randZero : ℕ → ℚ × ℚ := fun _ => (0, 0)

/-- A world point inside cell `(0, 0)` of the source's grid. -/
def pCell00 : Vec3 := ⟨-149/10, 0, -149/10⟩

/-- A world point inside cell `(1, 1)` of the source's grid. -/
def pCell11 : Vec3 := ⟨-144/10, 0, -144/10⟩

/-- The route invariant of a frontier entry: the recorded cells form a
chain of legal steps arriving at the entry's current cell (the list is
stored newest-first). -/
def EntryChain (sg : SearchGrid) (e : Entry) : Prop :=
  List.Chain' (fun a b => legalStep sg b a = true) (e.cur :: e.tail)

namespace NavigationGrid

/-- Mapping a cell center back to grid space recovers the cell: the
transforms are inverse up to the half-cell rounding. -/
theorem worldToGrid_gridToWorld (gx gz : ℤ) :
    worldToGrid (gridToWorld gx gz) = (gx, gz) := by
  unfold worldToGrid gridToWorld cellSize offsetX offsetZ
  have hx : ((gx : ℚ) * (1 / 2) - 15 + 1 / 2 / 2 + 15) / (1 / 2) =
      (gx : ℚ) + 1 / 2 := by ring
  have hz : ((gz : ℚ) * (1 / 2) - 15 + 1 / 2 / 2 + 15) / (1 / 2) =
      (gz : ℚ) + 1 / 2 := by ring
  simp only [hx, hz, Int.floor_int_add]
  norm_num

/-- C3: for a world point `p` lying in cell `(i, j)` (the cell whose world
footprint contains `p`), `gridToWorld (worldToGrid p)` is exactly that
cell's center, its x and z lie within half a cell of `p`, and the round
trip is idempotent: applying `worldToGrid` then `gridToWorld` to the
result returns the same point again. -/
theorem roundTrip_spec (p : Vec3) (i j : ℤ)
    (hx1 : (i : ℚ) * cellSize - offsetX ≤ p.x)
    (hx2 : p.x < ((i : ℚ) + 1) * cellSize - offsetX)
    (hz1 : (j : ℚ) * cellSize - offsetZ ≤ p.z)
    (hz2 : p.z < ((j : ℚ) + 1) * cellSize - offsetZ) :
    gridToWorld (worldToGrid p).1 (worldToGrid p).2 = gridToWorld i j ∧
    |(gridToWorld (worldToGrid p).1 (worldToGrid p).2).x - p.x| ≤ cellSize / 2 ∧
    |(gridToWorld (worldToGrid p).1 (worldToGrid p).2).z - p.z| ≤ cellSize / 2 ∧
    gridToWorld (worldToGrid (gridToWorld (worldToGrid p).1 (worldToGrid p).2)).1
        (worldToGrid (gridToWorld (worldToGrid p).1 (worldToGrid p).2)).2 =
      gridToWorld (worldToGrid p).1 (worldToGrid p).2 := by
  have hcell : worldToGrid p = (i, j) := by
    have h1 : ⌊(p.x + offsetX) / cellSize⌋ = i := by
      have e : (p.x + offsetX) / cellSize = 2 * p.x + 30 := by
        unfold cellSize offsetX; ring
      unfold cellSize offsetX at hx1 hx2
      rw [e, Int.floor_eq_iff]
      constructor <;> nlinarith
    have h2 : ⌊(p.z + offsetZ) / cellSize⌋ = j := by
      have e : (p.z + offsetZ) / cellSize = 2 * p.z + 30 := by
        unfold cellSize offsetZ; ring
      unfold cellSize offsetZ at hz1 hz2
      rw [e, Int.floor_eq_iff]
      constructor <;> nlinarith
    unfold worldToGrid
    rw [h1, h2]
  refine ⟨by rw [hcell], ?_, ?_, ?_⟩
  · rw [hcell]
    show |(i : ℚ) * cellSize - offsetX + cellSize / 2 - p.x| ≤ cellSize / 2
    unfold cellSize offsetX at *
    rw [abs_le]
    constructor <;> nlinarith
  · rw [hcell]
    show |(j : ℚ) * cellSize - offsetZ + cellSize / 2 - p.z| ≤ cellSize / 2
    unfold cellSize offsetZ at *
    rw [abs_le]
    constructor <;> nlinarith
  · rw [hcell]
    rw [worldToGrid_gridToWorld]

/-- C8: `isWalkable` returns `false` whenever the point's grid cell is out
of range, and the stored walkability of the containing cell otherwise. -/
theorem isWalkable_spec (ng : NavigationGrid) (p : Vec3) :
    (ng.isValidCell (worldToGrid p).1 (worldToGrid p).2 = false →
      ng.isWalkable p = false) ∧
    (ng.isValidCell (worldToGrid p).1 (worldToGrid p).2 = true →
      ng.isWalkable p = ng.grid (worldToGrid p).1 (worldToGrid p).2) := by
  constructor <;> intro h <;> simp [isWalkable, isWalkableAt, h]

/-- C7: a path query never mutates the canonical grid — the search runs on
a disposable clone, and the walkability of every cell of the object's grid
is unchanged by `findPath`. -/
theorem findPath_no_mutation (ng : NavigationGrid) (a b : Vec3) (x z : ℤ) :
    ((ng.findPathSt a b).2).grid x z = ng.grid x z := rfl

/-- C6: `findPath` is deterministic — two queries with the same grid state
and endpoints return the same path, and `getPathDistance` the same scalar. -/
theorem findPath_deterministic (ng : NavigationGrid) (a b : Vec3) :
    (∀ p1 p2 : List Vec3, p1 = ng.findPath a b → p2 = ng.findPath a b →
      p1 = p2) ∧
    (∀ d1 d2 : ℝ, d1 = ng.getPathDistance a b → d2 = ng.getPathDistance a b →
      d1 = d2) := by
  exact ⟨fun p1 p2 h1 h2 => h1.trans h2.symm, fun d1 d2 h1 h2 => h1.trans h2.symm⟩

end NavigationGrid

/-- `Vec3.Distance` is a square root, hence nonnegative. -/
theorem Vec3.Distance_nonneg (a b : Vec3) : 0 ≤ Vec3.Distance a b :=
  Real.sqrt_nonneg _

/-- A polyline's length is a sum of distances, hence nonnegative. -/
theorem pathLength_nonneg : ∀ l : List Vec3, 0 ≤ pathLength l
  | [] => le_of_eq rfl
  | [_] => le_of_eq rfl
  | a :: b :: rest => by
    have ih := pathLength_nonneg (b :: rest)
    simp only [pathLength]
    exact add_nonneg (Vec3.Distance_nonneg a b) ih

namespace NavigationGrid

/-- C1: `getPathDistance` sums the Euclidean distances of consecutive
waypoints when the found path has 2 or more points, falls back to the
straight-line distance between the two original world-space query points
when it has fewer, and is nonnegative in both cases. -/
theorem getPathDistance_spec (ng : NavigationGrid) (a b : Vec3) :
    (2 ≤ (ng.findPath a b).length →
      ng.getPathDistance a b = pathLength (ng.findPath a b)) ∧
    ((ng.findPath a b).length < 2 →
      ng.getPathDistance a b = Vec3.Distance a b) ∧
    0 ≤ ng.getPathDistance a b := by
  by_cases h : (ng.findPath a b).length < 2
  · refine ⟨fun h2 => by omega, fun _ => by simp [getPathDistance, h], ?_⟩
    simpa [getPathDistance, h] using Vec3.Distance_nonneg a b
  · refine ⟨fun _ => by simp [getPathDistance, h], fun h2 => absurd h2 h, ?_⟩
    simpa [getPathDistance, h] using pathLength_nonneg (ng.findPath a b)

end NavigationGrid

namespace NavigationGrid

/-- A stamping pass leaves the house and grid dimensions untouched. -/
theorem foldl_markMesh_house : ∀ (l : List Box) (ng : NavigationGrid),
    (l.foldl markMeshAsBlocked ng).house = ng.house ∧
    (l.foldl markMeshAsBlocked ng).gridWidth = ng.gridWidth ∧
    (l.foldl markMeshAsBlocked ng).gridHeight = ng.gridHeight
  | [], _ => ⟨rfl, rfl, rfl⟩
  | _ :: bs, _ => foldl_markMesh_house bs _

/-- A stamping pass keeps the validity test of every cell. -/
theorem foldl_markMesh_isValidCell (l : List Box) (ng : NavigationGrid)
    (x z : ℤ) :
    (l.foldl markMeshAsBlocked ng).isValidCell x z = ng.isValidCell x z := by
  unfold isValidCell
  rw [(foldl_markMesh_house l ng).2.1, (foldl_markMesh_house l ng).2.2]

/-- One stamping pass never unblocks a cell. -/
theorem markMesh_preserves_false (ng : NavigationGrid) (b : Box) (x z : ℤ)
    (h : ng.grid x z = false) : (ng.markMeshAsBlocked b).grid x z = false := by
  cases hc : inStampRange b x z && ng.isValidCell x z <;>
    simp [markMeshAsBlocked, hc, h]

/-- A whole fold of stamping passes never unblocks a cell. -/
theorem foldl_markMesh_preserves_false : ∀ (l : List Box) (ng : NavigationGrid)
    (x z : ℤ), ng.grid x z = false →
    (l.foldl markMeshAsBlocked ng).grid x z = false
  | [], _, _, _, h => h
  | b :: bs, ng, x, z, h => by
    exact foldl_markMesh_preserves_false bs _ x z
      (markMesh_preserves_false ng b x z h)

/-- A fold of stamping passes blocks every valid cell lying in the stamped
range of one of its boxes. -/
theorem foldl_markMesh_blocks : ∀ (l : List Box) (ng : NavigationGrid)
    (b : Box) (x z : ℤ), b ∈ l → inStampRange b x z = true →
    ng.isValidCell x z = true →
    (l.foldl markMeshAsBlocked ng).grid x z = false
  | [], _, _, _, _, hmem, _, _ => absurd hmem (List.not_mem_nil _)
  | b0 :: bs, ng, b, x, z, hmem, hr, hv => by
    rcases List.mem_cons.mp hmem with rfl | hmem2
    · exact foldl_markMesh_preserves_false bs _ x z
        (by simp [markMeshAsBlocked, hr, hv])
    · refine foldl_markMesh_blocks bs _ b x z hmem2 hr ?_
      have := foldl_markMesh_isValidCell [b0] ng x z
      simpa [List.foldl] using this.trans hv

end NavigationGrid

namespace NavigationGrid

/-- The out-of-bounds pass never unblocks a cell. -/
theorem markOutOfBounds_preserves_false (ng : NavigationGrid) (x z : ℤ)
    (h : ng.grid x z = false) : ng.markOutOfBounds.grid x z = false := by
  cases hc : ng.isValidCell x z && outsideInset ng.house x z <;>
    simp [markOutOfBounds, hc, h]

/-- A fold of stamping passes leaves every cell outside all its boxes'
stamped ranges untouched. -/
theorem foldl_markMesh_keeps : ∀ (l : List Box) (ng : NavigationGrid)
    (x z : ℤ), (∀ b ∈ l, inStampRange b x z = false) →
    (l.foldl markMeshAsBlocked ng).grid x z = ng.grid x z
  | [], _, _, _, _ => rfl
  | b0 :: bs, ng, x, z, h => by
    have h0 : inStampRange b0 x z = false := h b0 (List.mem_cons_self b0 bs)
    have ih := foldl_markMesh_keeps bs (ng.markMeshAsBlocked b0) x z
      (fun b hb => h b (List.mem_cons_of_mem b0 hb))
    simp only [List.foldl_cons] at *
    rw [ih]
    simp [markMeshAsBlocked, h0]

/-- C4 (amended): after `generate`, every in-range cell whose world-space
minimum corner `(x * cellSize - offsetX, z * cellSize - offsetZ)` falls
outside the house bounds shrunk inward by the 0.5-unit inset is blocked. -/
theorem generate_corner_inset_blocked (ng : NavigationGrid) (x z : ℤ)
    (hv : ng.isValidCell x z = true)
    (ho : x * cellSize - offsetX < ng.house.bounds.min.x + 1 / 2 ∨
      x * cellSize - offsetX > ng.house.bounds.max.x - 1 / 2 ∨
      z * cellSize - offsetZ < ng.house.bounds.min.z + 1 / 2 ∨
      z * cellSize - offsetZ > ng.house.bounds.max.z - 1 / 2) :
    ng.generate.grid x z = false := by
  have hhouse : (ng.house.obstacles.foldl markMeshAsBlocked
      (ng.house.walls.foldl markMeshAsBlocked ng.setAllWalkable)).house =
      ng.house := by
    rw [(foldl_markMesh_house _ _).1, (foldl_markMesh_house _ _).1]
    rfl
  have hv2 : (ng.house.obstacles.foldl markMeshAsBlocked
      (ng.house.walls.foldl markMeshAsBlocked ng.setAllWalkable)).isValidCell
      x z = true := by
    rw [foldl_markMesh_isValidCell, foldl_markMesh_isValidCell]
    exact hv
  have hoo : outsideInset (ng.house.obstacles.foldl markMeshAsBlocked
      (ng.house.walls.foldl markMeshAsBlocked ng.setAllWalkable)).house x z =
      true := by
    rw [hhouse]
    exact decide_eq_true ho
  unfold generate markOutOfBounds
  simp [hv2, hoo]

/-- C4 counterexample: with the source's house bounds and no meshes, the
world-space center of the in-range cell `(59, 30)` lies outside the inset
house bounds, yet `generate` leaves the cell walkable (the source tests
the cell's corner, not its center). -/
theorem generate_center_inset_counterexample :
    (gridToWorld 59 30).x > houseEmpty.bounds.max.x - 1 / 2 ∧
    ((init houseEmpty).generate).isValidCell 59 30 = true ∧
    ((init houseEmpty).generate).grid 59 30 = true := by
  refine ⟨by norm_num [gridToWorld, houseEmpty, cellSize, offsetX], ?_, ?_⟩
  · norm_num [generate, markOutOfBounds, setAllWalkable, isValidCell,
      init, houseEmpty, cellSize]
  · norm_num [generate, markOutOfBounds, setAllWalkable, isValidCell,
      outsideInset, init, houseEmpty, cellSize, offsetX, offsetZ]

/-- Witness for the amended C4 theorem at the concrete cell `(0, 0)` of the
source's house bounds. -/
theorem generate_corner_inset_blocked_witness :
    ((init houseEmpty).generate).grid 0 0 = false :=
  generate_corner_inset_blocked _ 0 0
    (by norm_num [isValidCell, init, houseEmpty, cellSize])
    (by norm_num [init, houseEmpty, cellSize, offsetX])

/-- C5 (amended): a box's stamped range is the inclusive grid rectangle
from the floor of its padded min corner to the ceiling of its padded max
corner; every in-range cell of the stamped range of a stamped wall or
obstacle ends up blocked after `generate`; cells failing `isValidCell` are
silently skipped by a stamping pass; and an in-range cell inside the inset
bounds that is in no stamped range stays walkable after `generate`. -/
theorem markMeshAsBlocked_spec (ng : NavigationGrid) :
    (∀ b ∈ ng.house.walls ++ ng.house.obstacles, ∀ x z : ℤ,
      ng.isValidCell x z = true → inStampRange b x z = true →
      ng.generate.grid x z = false) ∧
    (∀ (b : Box) (x z : ℤ), ng.isValidCell x z = false →
      (ng.markMeshAsBlocked b).grid x z = ng.grid x z) ∧
    (∀ x z : ℤ, ng.isValidCell x z = true →
      outsideInset ng.house x z = false →
      (∀ b ∈ ng.house.walls ++ ng.house.obstacles, inStampRange b x z = false) →
      ng.generate.grid x z = true) := by
  refine ⟨?_, ?_, ?_⟩
  · intro b hb x z hv hr
    unfold generate
    rcases List.mem_append.mp hb with hw | hob
    · exact markOutOfBounds_preserves_false _ x z
        (foldl_markMesh_preserves_false _ _ x z
          (foldl_markMesh_blocks _ _ b x z hw hr hv))
    · refine markOutOfBounds_preserves_false _ x z
        (foldl_markMesh_blocks _ _ b x z hob hr ?_)
      rw [foldl_markMesh_isValidCell]
      exact hv
  · intro b x z hv
    simp [markMeshAsBlocked, hv]
  · intro x z hv hin hall
    have hw : ∀ b ∈ ng.house.walls, inStampRange b x z = false :=
      fun b hb => hall b (List.mem_append.mpr (Or.inl hb))
    have hob : ∀ b ∈ ng.house.obstacles, inStampRange b x z = false :=
      fun b hb => hall b (List.mem_append.mpr (Or.inr hb))
    have hhouse : (ng.house.obstacles.foldl markMeshAsBlocked
        (ng.house.walls.foldl markMeshAsBlocked ng.setAllWalkable)).house =
        ng.house := by
      rw [(foldl_markMesh_house _ _).1, (foldl_markMesh_house _ _).1]
      rfl
    have hv2 : (ng.house.obstacles.foldl markMeshAsBlocked
        (ng.house.walls.foldl markMeshAsBlocked ng.setAllWalkable)).isValidCell
        x z = true := by
      rw [foldl_markMesh_isValidCell, foldl_markMesh_isValidCell]
      exact hv
    unfold generate markOutOfBounds
    simp only [hhouse, hv2, hin, Bool.and_false, Bool.false_eq_true,
      if_false]
    rw [foldl_markMesh_keeps _ _ _ _ hob, foldl_markMesh_keeps _ _ _ _ hw]
    simp [setAllWalkable, hv]

/-- The ceiling value of the padded unit box's max corner in grid units. -/
theorem ceil_unit_pad : ⌈(163 / 5 : ℚ)⌉ = 33 := by
  norm_num [Int.ceil_eq_iff]

/-- C5 counterexample: one unit obstacle box in the source's house bounds;
the in-range cell `(33, 30)` lies strictly outside the padded region (its
world corner starts past `max.x + padding`) and is inside the inset house
bounds, yet `generate` blocks it — the ceiling-converted stamped range
overshoots the padded box by a fraction of a cell. -/
theorem markMesh_padding_counterexample :
    (33 : ℚ) * cellSize - offsetX > boxUnit.max.x + padding ∧
    outsideInset houseWithBox 33 30 = false ∧
    ((init houseWithBox).generate).isValidCell 33 30 = true ∧
    ((init houseWithBox).generate).grid 33 30 = false := by
  refine ⟨by norm_num [boxUnit, cellSize, offsetX, padding], ?_, ?_, ?_⟩
  · norm_num [outsideInset, houseWithBox, cellSize, offsetX, offsetZ]
  · norm_num [generate, markOutOfBounds, setAllWalkable, markMeshAsBlocked,
      isValidCell, init, houseWithBox, cellSize]
  · norm_num [generate, markOutOfBounds, setAllWalkable, markMeshAsBlocked,
      isValidCell, outsideInset, inStampRange, stampMinX, stampMaxX,
      stampMinZ, stampMaxZ, init, houseWithBox, boxUnit, cellSize, offsetX,
      offsetZ, padding, ceil_unit_pad]

/-- Witness for the amended C5 theorem: with the unit obstacle, the
stamped cell `(30, 30)` is blocked and the untouched cell `(10, 10)` stays
walkable. -/
theorem markMeshAsBlocked_spec_witness :
    ((init houseWithBox).generate).grid 30 30 = false ∧
    ((init houseWithBox).generate).grid 10 10 = true := by
  constructor
  · refine (markMeshAsBlocked_spec _).1 boxUnit ?_ 30 30 ?_ ?_
    · simp [init, houseWithBox]
    · norm_num [isValidCell, init, houseWithBox, cellSize]
    · norm_num [inStampRange, stampMinX, stampMaxX, stampMinZ, stampMaxZ,
        boxUnit, cellSize, offsetX, offsetZ, padding, ceil_unit_pad]
  · refine (markMeshAsBlocked_spec _).2.2 10 10 ?_ ?_ ?_
    · norm_num [isValidCell, init, houseWithBox, cellSize]
    · norm_num [outsideInset, init, houseWithBox, cellSize, offsetX, offsetZ]
    · intro b hb
      simp only [init, houseWithBox] at hb
      simp only [List.nil_append, List.mem_singleton] at hb
      subst hb
      norm_num [inStampRange, stampMinX, stampMaxX, stampMinZ, stampMaxZ,
        boxUnit, cellSize, offsetX, offsetZ, padding, ceil_unit_pad]

end NavigationGrid

namespace NavigationGrid

/-- When every sample of the window is non-walkable, the retry loop
exhausts its budget and fails. -/
theorem randLoop_none (ng : NavigationGrid) (rand : ℕ → ℚ × ℚ) :
    ∀ (fuel i : ℕ),
    (∀ j, i ≤ j → j < i + fuel →
      ng.isWalkableAt (ng.sample rand j).1 (ng.sample rand j).2 = false) →
    ng.randLoop rand i fuel = none
  | 0, _, _ => rfl
  | fuel + 1, i, h => by
    have h0 := h i (le_refl i) (by omega)
    simp only [randLoop, h0, Bool.false_eq_true, if_false]
    exact randLoop_none ng rand fuel (i + 1) fun j hj1 hj2 => h j (by omega) (by omega)

/-- The retry loop returns the world center of the first walkable sample. -/
theorem randLoop_first (ng : NavigationGrid) (rand : ℕ → ℚ × ℚ) :
    ∀ (fuel i k : ℕ), i ≤ k → k < i + fuel →
    (∀ j, i ≤ j → j < k →
      ng.isWalkableAt (ng.sample rand j).1 (ng.sample rand j).2 = false) →
    ng.isWalkableAt (ng.sample rand k).1 (ng.sample rand k).2 = true →
    ng.randLoop rand i fuel =
      some (gridToWorld (ng.sample rand k).1 (ng.sample rand k).2)
  | 0, i, k, h1, h2, _, _ => absurd h2 (by omega)
  | fuel + 1, i, k, h1, h2, hprev, hk => by
    rcases eq_or_lt_of_le h1 with rfl | hik
    · simp only [randLoop, hk, if_true]
    · have h0 := hprev i (le_refl i) hik
      simp only [randLoop, h0, Bool.false_eq_true, if_false]
      exact randLoop_first ng rand fuel (i + 1) k (by omega) (by omega)
        (fun j hj1 hj2 => hprev j (by omega) hj2) hk

/-- A successful retry loop found a walkable sample and returned its world
center. -/
theorem randLoop_some (ng : NavigationGrid) (rand : ℕ → ℚ × ℚ) :
    ∀ (fuel i : ℕ) (p : Vec3), ng.randLoop rand i fuel = some p →
    ∃ j, i ≤ j ∧ j < i + fuel ∧
      ng.isWalkableAt (ng.sample rand j).1 (ng.sample rand j).2 = true ∧
      p = gridToWorld (ng.sample rand j).1 (ng.sample rand j).2
  | 0, i, p, h => by simp [randLoop] at h
  | fuel + 1, i, p, h => by
    by_cases hc : ng.isWalkableAt (ng.sample rand i).1 (ng.sample rand i).2 = true
    · refine ⟨i, le_refl i, by omega, hc, ?_⟩
      simp only [randLoop, hc, if_true, Option.some.injEq] at h
      exact h.symm
    · have hc2 : ng.isWalkableAt (ng.sample rand i).1 (ng.sample rand i).2 =
          false := by
        simpa using hc
      simp only [randLoop, hc2, Bool.false_eq_true, if_false] at h
      obtain ⟨j, hj1, hj2, hj3, hj4⟩ := randLoop_some ng rand fuel (i + 1) p h
      exact ⟨j, by omega, by omega, hj3, hj4⟩

/-- C9: `getRandomWalkablePosition` samples at most `maxAttempts = 100`
cells: if all 100 samples are non-walkable (in particular on a fully
blocked grid) it returns `none`, and otherwise it returns the world-space
center of the first walkable cell sampled. -/
theorem getRandomWalkablePosition_spec (ng : NavigationGrid)
    (rand : ℕ → ℚ × ℚ) :
    ((∀ j, j < maxAttempts →
        ng.isWalkableAt (ng.sample rand j).1 (ng.sample rand j).2 = false) →
      ng.getRandomWalkablePosition rand = none) ∧
    ((∀ x z : ℤ, ng.grid x z = false) →
      ng.getRandomWalkablePosition rand = none) ∧
    (∀ k, k < maxAttempts →
      (∀ j, j < k →
        ng.isWalkableAt (ng.sample rand j).1 (ng.sample rand j).2 = false) →
      ng.isWalkableAt (ng.sample rand k).1 (ng.sample rand k).2 = true →
      ng.getRandomWalkablePosition rand =
        some (gridToWorld (ng.sample rand k).1 (ng.sample rand k).2)) := by
  refine ⟨?_, ?_, ?_⟩
  · intro h
    exact randLoop_none ng rand maxAttempts 0 fun j hj1 hj2 => h j (by omega)
  · intro h
    refine randLoop_none ng rand maxAttempts 0 fun j hj1 hj2 => ?_
    simp [isWalkableAt, h]
  · intro k hk hprev hk2
    exact randLoop_first ng rand maxAttempts 0 k (by omega) (by omega)
      (fun j hj1 hj2 => hprev j hj2) hk2

/-- C10: a non-null result of `getRandomWalkablePosition` is a point that
`isWalkable` accepts — the returned cell center maps back to the sampled
in-range walkable cell. -/
theorem getRandomWalkablePosition_isWalkable (ng : NavigationGrid)
    (rand : ℕ → ℚ × ℚ) (p : Vec3)
    (h : ng.getRandomWalkablePosition rand = some p) :
    ng.isWalkable p = true := by
  obtain ⟨j, _, _, hw, rfl⟩ := randLoop_some ng rand maxAttempts 0 p h
  have hv : ng.isValidCell (ng.sample rand j).1 (ng.sample rand j).2 = true :=
    (Bool.and_eq_true_iff.mp hw).1
  simp [isWalkable, worldToGrid_gridToWorld, hv, hw]

end NavigationGrid

/-- Witness for C9 at a concrete fully blocked grid. -/
theorem getRandomWalkablePosition_spec_witness :
    ngBlocked.getRandomWalkablePosition randZero = none :=
  (NavigationGrid.getRandomWalkablePosition_spec ngBlocked randZero).2.1
    fun _ _ => rfl

/-- Witness for C10 at a concrete open grid with a constant random stream. -/
theorem getRandomWalkablePosition_isWalkable_witness :
    ngOpen1.isWalkable (NavigationGrid.gridToWorld 0 0) = true := by
  have hs : ngOpen1.sample randZero 0 = (0, 0) := by
    norm_num [NavigationGrid.sample, randZero, ngOpen1]
  have hwalk : ngOpen1.isWalkableAt (ngOpen1.sample randZero 0).1
      (ngOpen1.sample randZero 0).2 = true := by
    rw [hs]
    norm_num [NavigationGrid.isWalkableAt, NavigationGrid.isValidCell, ngOpen1]
  have h : ngOpen1.getRandomWalkablePosition randZero =
      some (NavigationGrid.gridToWorld 0 0) := by
    have := NavigationGrid.randLoop_first ngOpen1 randZero 100 0 0
      (le_refl 0) (by omega) (fun j hj1 hj2 => absurd hj2 (by omega)) hwalk
    rw [hs] at this
    exact this
  exact NavigationGrid.getRandomWalkablePosition_isWalkable ngOpen1 randZero _ h

/-- `legalStep` reads only the walkability snapshot, never the search
annotations. -/
theorem legalStep_closed (sg : SearchGrid) (cl : List (ℤ × ℤ)) (c c2 : ℤ × ℤ) :
    legalStep { sg with closed := cl } c c2 = legalStep sg c c2 := rfl

/-- `pickMin` extracts an element of the open list and returns a sublist
of it. -/
theorem pickMin_mem (endC : ℤ × ℤ) :
    ∀ (l : List Entry) (e : Entry) (rest : List Entry),
    pickMin endC l = some (e, rest) → e ∈ l ∧ ∀ e2 ∈ rest, e2 ∈ l
  | [], e, rest, h => by simp [pickMin] at h
  | e0 :: es, e, rest, h => by
    simp only [pickMin] at h
    cases hrec : pickMin endC es with
    | none =>
      simp only [hrec] at h
      cases h
      exact ⟨List.mem_cons_self e0 es, by simp⟩
    | some pr =>
      obtain ⟨eb, esb⟩ := pr
      simp only [hrec] at h
      by_cases hf : fval endC e0 ≤ fval endC eb
      · rw [if_pos hf] at h
        cases h
        exact ⟨List.mem_cons_self _ _, fun x hx => List.mem_cons_of_mem _ hx⟩
      · rw [if_neg hf] at h
        have ih := pickMin_mem endC es eb esb hrec
        cases h
        refine ⟨List.mem_cons_of_mem _ ih.1, fun x hx => ?_⟩
        rcases List.mem_cons.mp hx with rfl | hx2
        · exact List.mem_cons_self _ _
        · exact List.mem_cons_of_mem _ (ih.2 x hx2)

/-- Every entry produced by an expansion extends a legal route by one
legal step. -/
theorem expand_chain (sg : SearchGrid) (c : ℤ × ℤ) (tl : List (ℤ × ℤ))
    (g : ℚ)
    (hc : List.Chain' (fun a b => legalStep sg b a = true) (c :: tl)) :
    ∀ e2 ∈ expand sg c tl g, EntryChain sg e2 := by
  intro e2 he
  obtain ⟨d, _, hfd⟩ := List.mem_filterMap.mp he
  dsimp only at hfd
  split at hfd
  · rename_i hcond
    cases hfd
    exact List.chain'_cons.mpr ⟨(Bool.and_eq_true_iff.mp hcond).1, hc⟩
  · exact absurd hfd (by simp)

/-- Invariant of the search loop: when every open entry carries a legal
route, the returned path is a chain of legal steps. -/
theorem astarLoop_chain (endC : ℤ × ℤ) :
    ∀ (fuel : ℕ) (sg : SearchGrid) (openL : List Entry),
    (∀ e ∈ openL, EntryChain sg e) →
    List.Chain' (fun a b => legalStep sg a b = true)
      (astarLoop endC fuel sg openL).1
  | 0, sg, openL, _ => by simp [astarLoop]
  | fuel + 1, sg, openL, h => by
    cases hpick : pickMin endC openL with
    | none => simp [astarLoop, hpick]
    | some pr =>
      obtain ⟨e, rest⟩ := pr
      have hmem := pickMin_mem endC openL e rest hpick
      have hce : EntryChain sg e := h e hmem.1
      simp only [astarLoop, hpick]
      by_cases hclosed : sg.closed.contains e.cur = true
      · simp only [hclosed, if_true]
        exact astarLoop_chain endC fuel sg rest fun x hx => h x (hmem.2 x hx)
      · have hcl2 : sg.closed.contains e.cur = false := by simpa using hclosed
        simp only [hcl2, Bool.false_eq_true, if_false]
        by_cases hend : e.cur = endC
        · rw [if_pos hend]
          rw [List.chain'_reverse]
          exact hce
        · simp only [hend, if_false]
          refine astarLoop_chain endC fuel _ _ ?_
          intro x hx
          rcases List.mem_append.mp hx with hx1 | hx2
          · exact h x (hmem.2 x hx1)
          · exact expand_chain
              { sg with closed := e.cur :: sg.closed } e.cur e.tail e.g hce
              x hx2

namespace NavigationGrid

/-- A legal diagonal step of the search is exactly a step that does not
cut a corner: mapped to world waypoints, it satisfies `noCornerCut`. -/
theorem legalStep_noCornerCut (ng : NavigationGrid) (cl : List (ℤ × ℤ))
    (c1 c2 : ℤ × ℤ)
    (h : legalStep ⟨ng.gridWidth, ng.gridHeight, ng.grid, cl⟩ c1 c2 = true) :
    ng.noCornerCut (gridToWorld c1.1 c1.2) (gridToWorld c2.1 c2.2) := by
  unfold noCornerCut
  simp only [worldToGrid_gridToWorld]
  intro hdiag
  unfold legalStep SearchGrid.walkableAt at h
  simp only [Bool.and_eq_true, Bool.or_eq_true, decide_eq_true_eq] at h
  obtain ⟨hw2, hrest⟩ := h
  rcases hrest with horth | hdiag2
  · rw [hdiag.1, hdiag.2] at horth
    norm_num at horth
  · obtain ⟨⟨hdd, hwA⟩, hwB⟩ := hdiag2
    constructor
    · unfold isWalkableAt isValidCell
      simp only [Bool.and_eq_true, decide_eq_true_eq]
      exact hwA
    · unfold isWalkableAt isValidCell
      simp only [Bool.and_eq_true, decide_eq_true_eq]
      exact hwB

/-- C2: no path returned by `findPath` contains a corner-cutting diagonal
step — whenever two consecutive waypoints sit in diagonally adjacent grid
cells, both cells orthogonally adjacent to the diagonal are walkable. -/
theorem findPath_no_corner_cut (ng : NavigationGrid) (a b : Vec3) :
    List.Chain' (ng.noCornerCut) (ng.findPath a b) := by
  simp only [findPath, findPathSt, finderFindPath]
  rw [List.chain'_map]
  refine List.Chain'.imp ?_ (astarLoop_chain _ _ _ _ ?_)
  · intro c1 c2 hstep
    exact legalStep_noCornerCut ng [] c1 c2 hstep
  · intro e he
    simp only [List.mem_singleton] at he
    subst he
    exact List.chain'_singleton _

end NavigationGrid

/-- Sanity evaluation of the modelled search: on an open 2×2 grid the path
between opposite corner cells is the two cell centers, including one
diagonal step. -/
theorem findPath_open2_example :
    ngOpen2.findPath pCell00 pCell11 =
      [NavigationGrid.gridToWorld 0 0, NavigationGrid.gridToWorld 1 1] := by
  norm_num [NavigationGrid.findPath, NavigationGrid.findPathSt,
    NavigationGrid.worldToGrid, finderFindPath, searchFuel, astarLoop,
    pickMin, fval, octile, SQRT2, stepCost, expand, neighborOffsets,
    legalStep, SearchGrid.walkableAt, ngOpen2, pCell00, pCell11, houseEmpty,
    cellSize, offsetX, offsetZ, List.filterMap, List.contains]

/-- Witness for C2: the no-corner-cut chain at a concrete grid and pair of
query points whose path contains a diagonal step. -/
theorem findPath_no_corner_cut_witness :
    List.Chain' (ngOpen2.noCornerCut) (ngOpen2.findPath pCell00 pCell11) :=
  NavigationGrid.findPath_no_corner_cut ngOpen2 pCell00 pCell11

/-- Witness for C3 at the concrete point `pCell00`, which lies in cell
`(0, 0)`. -/
theorem roundTrip_spec_witness :
    NavigationGrid.gridToWorld (NavigationGrid.worldToGrid pCell00).1
        (NavigationGrid.worldToGrid pCell00).2 =
      NavigationGrid.gridToWorld 0 0 ∧
    |(NavigationGrid.gridToWorld (NavigationGrid.worldToGrid pCell00).1
        (NavigationGrid.worldToGrid pCell00).2).x - pCell00.x| ≤ cellSize / 2 ∧
    |(NavigationGrid.gridToWorld (NavigationGrid.worldToGrid pCell00).1
        (NavigationGrid.worldToGrid pCell00).2).z - pCell00.z| ≤ cellSize / 2 ∧
    NavigationGrid.gridToWorld
        (NavigationGrid.worldToGrid (NavigationGrid.gridToWorld
          (NavigationGrid.worldToGrid pCell00).1
          (NavigationGrid.worldToGrid pCell00).2)).1
        (NavigationGrid.worldToGrid (NavigationGrid.gridToWorld
          (NavigationGrid.worldToGrid pCell00).1
          (NavigationGrid.worldToGrid pCell00).2)).2 =
      NavigationGrid.gridToWorld (NavigationGrid.worldToGrid pCell00).1
        (NavigationGrid.worldToGrid pCell00).2 :=
  NavigationGrid.roundTrip_spec pCell00 0 0
    (by norm_num [pCell00, cellSize, offsetX])
    (by norm_num [pCell00, cellSize, offsetX])
    (by norm_num [pCell00, cellSize, offsetZ])
    (by norm_num [pCell00, cellSize, offsetZ])

/-- Witness for C6 at a concrete grid and endpoints. -/
theorem findPath_deterministic_witness :
    ngOpen2.findPath pCell00 pCell11 = ngOpen2.findPath pCell00 pCell11 ∧
    ngOpen2.getPathDistance pCell00 pCell11 =
      ngOpen2.getPathDistance pCell00 pCell11 :=
  ⟨(NavigationGrid.findPath_deterministic ngOpen2 pCell00 pCell11).1 _ _
      rfl rfl,
    (NavigationGrid.findPath_deterministic ngOpen2 pCell00 pCell11).2 _ _
      rfl rfl⟩
